import Mathlib

/-!
Shallow embedding of the moving-window raster subsystem of the
PLJV pljv-python-geospatial repository (src/beatbox/moving_windows.py,
src/beatbox/raster.py, src/scripts/gdal_moving_windows.py).

Rasters are rectangular 2-d NumPy arrays, modelled here as lists of rows of
integers; masked arrays carry an additional Boolean mask grid.  Machine
floating point only appears in the sources as exact small integers (cell
values, squared distances below 2^53, correctly rounded square roots compared
against small integer radii), so integer arithmetic is an exact model of every
comparison the embedded code performs.
-/

namespace Beatbox

/-- Cell access with a default value, mirroring 2-d NumPy indexing.  The
Python code never indexes out of range; the default only keeps the Lean
function total. -/
def cell {α : Type} (d : α) (g : List (List α)) (i j : ℕ) : α :=
  (g.getD i []).getD j d

/-- Number of columns of a grid, read off the first row (NumPy shape[1]). -/
def cols {α : Type} (g : List (List α)) : ℕ :=
  (g.getD 0 []).length

/-- Build a grid row by row from a cell function; row i has C i cells. -/
def mkGrid {α : Type} (R : ℕ) (C : ℕ → ℕ) (F : ℕ → ℕ → α) : List (List α) :=
  (List.range R).map fun i => (List.range (C i)).map fun j => F i j

/-- Flatten a list of gathered neighborhood slices into one 1-d sample. -/
def concatAll : List (List ℤ) → List ℤ
  | [] => []
  | x :: xs => x ++ concatAll xs

/-- Kernel grid built by gen_circular_array for a positive pixel radius n:
a (2n+1) x (2n+1) grid of 0/1 values, 1 exactly where the Euclidean distance
from the center cell is at most n.  The source compares
np.sqrt((r-n)**2 + (c-n)**2) <= n in float64, which for these exactly
representable integers coincides with the integer comparison of squares. -/
def circKernel (n : ℕ) : List (List ℕ) :=
  mkGrid (2 * n + 1) (fun _ => 2 * n + 1) fun i j =>
    if ((i : ℤ) - (n : ℤ)) ^ 2 + ((j : ℤ) - (n : ℤ)) ^ 2 ≤ ((n : ℤ)) ^ 2 then 1 else 0

/-- Embedding of beatbox.moving_windows.gen_circular_array: for nPixels > 0 it
returns the circular kernel of side 2 * nPixels + 1; otherwise the kernel
variable keeps its initial None value. -/
def gen_circular_array (nPixels : ℤ) : Option (List (List ℕ)) :=
  if nPixels > 0 then some (circKernel nPixels.toNat) else none

/-- Embedding of the footprint-resolution step of ndimage_filter
(moving_windows.py lines 106-107): a truthy size always rebuilds the
footprint with gen_circular_array, discarding any footprint argument. -/
def resolve_footprint (size : Option ℤ) (footprint : Option (List (List ℕ))) :
    Option (List (List ℕ)) :=
  match size with
  | some w => if w = 0 then footprint else gen_circular_array w
  | none => footprint

/-- Modelled from the spec: binary_reclassify is imported by
src/scripts/gdal_moving_windows.py (line 28) from beatbox.raster, but its
definition is absent from the sources under src/; section 4.5 of the spec
defines it as mapping every cell whose value is a member of match_values to 1
(0 when invert is set) and every other cell to the complement, producing a
uint8 0/1 array of the input's shape. -/
def binary_reclassify (a : List (List ℤ)) (m : List ℤ) (invert : Bool) :
    List (List ℕ) :=
  mkGrid a.length (fun i => (a.getD i []).length) fun i j =>
    if (cell 0 a i j ∈ m) ≠ (invert = true) then 1 else 0

/-- Single pattern-atom match: in the patterns the source hands to re.search
a dot matches any character and every other character matches literally. -/
def charMatch (p c : Char) : Bool := p = '.' || p = c

/-- Does the pattern match a prefix of the string? -/
def matchesAt : List Char → List Char → Bool
  | [], _ => true
  | _ :: _, [] => false
  | p :: ps, c :: cs => charMatch p c && matchesAt ps cs

/-- Embedding of re.search for the literal-text-plus-dot patterns the source
uses: true when the pattern matches at some position of the string. -/
def re_search (pat : List Char) : List Char → Bool
  | [] => matchesAt pat []
  | c :: cs => matchesAt pat (c :: cs) || re_search pat cs

/-- Concrete numpy scalar types registered in raster.py's _NUMPY_TYPES. -/
inductive NpType where
  | intc
  | uint8
  | int8
  | int16
  | int32
  | uint16
  | uint32
  | single
  | float32
  | float64
  | complex64
  | complex128
deriving DecidableEq

/-- Embedding of raster.py's _NUMPY_TYPES dictionary, in insertion order
(Python dicts preserve it); note the source really does map the name int8 to
np.uint8 and byte to np.int8. -/
def _NUMPY_TYPES : List (String × NpType) :=
  [("int", NpType.intc), ("uint8", NpType.uint8), ("int8", NpType.uint8),
   ("byte", NpType.int8), ("int16", NpType.int16), ("int32", NpType.int32),
   ("uint16", NpType.uint16), ("uint32", NpType.uint32),
   ("float", NpType.single), ("float32", NpType.float32),
   ("float64", NpType.float64), ("complex64", NpType.complex64),
   ("complex128", NpType.complex128)]

/-- Embedding of raster.py's _to_numpy_type: lower-case the user string, then
scan the registered names in order and return the value of the first name
that the user string matches INSIDE when used as the re.search pattern.  The
source passes string=valid_type_str and pattern=user_str, the roles being
swapped relative to its companion _to_numpy_function in
scripts/gdal_moving_windows.py. -/
def _to_numpy_type (user_str : String) : Option NpType :=
  let u := user_str.toList.map Char.toLower
  (_NUMPY_TYPES.find? fun kv => re_search u kv.1.toList).map fun kv => kv.2

/-- Byte width (itemsize) of each numpy element type, as the spec's typed
array registry describes byte widths; used to state what claim C7 expects. -/
def NpType.itemsize : NpType → ℕ
  | NpType.intc => 4
  | NpType.uint8 => 1
  | NpType.int8 => 1
  | NpType.int16 => 2
  | NpType.int32 => 4
  | NpType.uint16 => 2
  | NpType.uint32 => 4
  | NpType.single => 4
  | NpType.float32 => 4
  | NpType.float64 => 8
  | NpType.complex64 => 8
  | NpType.complex128 => 16

/-- Embedding of raster.py's est_array_size on the shape-list branch.  The
function is parametrized by the behavior of sys.getsizeof (gso), which the
source applies to the RESULT of _to_numpy_type -- a Python type object, or
None -- rather than to an array element: the returned byte count is the
product of the dimensions times the interpreter size of that type object.
When dtype is None the source raises IndexError, whatever the shape was. -/
def est_array_size (gso : Option NpType → ℕ) (obj : List ℕ)
    (dtype : Option String) : Except String ℕ :=
  let array_len := obj.prod
  match dtype with
  | some _d => Except.ok (array_len * gso (_to_numpy_type _d))
  | none => Except.error "IndexError"

/-- Embedding of the write decision of ndimage_filter (moving_windows.py line
87).  Python parses the source expression
not os.path.isfile(filename) | overwrite and-bitwise write
as not (isfile or (overwrite and write)), because the bitwise operators bind
tighter than not; with no filename the flag is forced to False. -/
def ndimage_write_flag (filename : Option String)
    (isfile overwrite write : Bool) : Bool :=
  match filename with
  | none => false
  | some _ => !(isfile || (overwrite && write))

/-- The write decision claim C3 describes: write exactly when the destination
does not exist or the overwrite flag is set. -/
def claim_write_flag (isfile overwrite : Bool) : Bool :=
  !isfile || overwrite

/-- Boundary index folding of scipy.ndimage's default boundary mode reflect,
documented as (d c b a | a b c d | d c b a): indices are periodic with period
2n, the first half of a period mapping identically and the second half
mirroring. -/
def reflectIdx (n : ℕ) (i : ℤ) : ℕ :=
  if (i % (2 * (n : ℤ))).toNat < n then (i % (2 * (n : ℤ))).toNat
  else 2 * n - 1 - (i % (2 * (n : ℤ))).toNat

/-- Read a grid cell at possibly out-of-range signed indices, folding them
into range the way scipy.ndimage.generic_filter's default boundary mode
does. -/
def getReflect (g : List (List ℤ)) (i j : ℤ) : ℤ :=
  cell 0 g (reflectIdx g.length i) (reflectIdx (cols g) j)

/-- Neighborhood sample gathered by scipy.ndimage.generic_filter at output
cell (r, c): scan the footprint in C order and, for every nonzero footprint
cell, read the input at the corresponding offset (the footprint is centered
at floor of half its size per axis), folding out-of-range positions by
reflection.  This flattened 1-d list is what the reducer receives. -/
def sampleAt (g : List (List ℤ)) (fp : List (List ℕ)) (r c : ℕ) : List ℤ :=
  concatAll ((List.range fp.length).map fun fi =>
    concatAll ((List.range (cols fp)).map fun fj =>
      if cell 0 fp fi fj ≠ 0 then
        [getReflect g ((r : ℤ) + (fi : ℤ) - ((fp.length / 2 : ℕ) : ℤ))
          ((c : ℤ) + (fj : ℤ) - ((cols fp / 2 : ℕ) : ℤ))]
      else []))

/-- Embedding of scipy.ndimage.generic_filter as ndimage_filter calls it
(input=image, function=reducer, footprint=footprint, every other argument
left at its default): the output has the input's shape and every output cell
is the reducer applied to the gathered neighborhood sample. -/
def generic_filter (g : List (List ℤ)) (f : List ℤ → ℤ)
    (fp : List (List ℕ)) : List (List ℤ) :=
  mkGrid g.length (fun r => (g.getD r []).length) fun r c =>
    f (sampleAt g fp r c)

/-- Embedding of the no-data-to-zero step of ndimage_filter (moving_windows
lines 108-120): re-wrap the container's masked array with fill value 0 and
fill it, replacing every masked cell by 0. -/
def ma_filled (v : List (List ℤ)) (m : List (List Bool)) : List (List ℤ) :=
  mkGrid v.length (fun i => (v.getD i []).length) fun i j =>
    if (m.getD i []).getD j false then 0 else cell 0 v i j

/-- The sample claim C1 compares against: the same neighborhood gather, but
keeping only cells that are unmasked in the source and reading their original
values.  Masked cells contribute exactly 0 to a sum-based reducer iff the sum
of sampleAt over the filled array equals the sum of this list. -/
def sampleAtUnmasked (v : List (List ℤ)) (m : List (List Bool))
    (fp : List (List ℕ)) (r c : ℕ) : List ℤ :=
  concatAll ((List.range fp.length).map fun fi =>
    concatAll ((List.range (cols fp)).map fun fj =>
      if cell 0 fp fi fj ≠ 0 then
        (if (m.getD (reflectIdx v.length
                ((r : ℤ) + (fi : ℤ) - ((fp.length / 2 : ℕ) : ℤ))) []).getD
              (reflectIdx (cols v)
                ((c : ℤ) + (fj : ℤ) - ((cols fp / 2 : ℕ) : ℤ))) false then
          []
         else
          [cell 0 v
            (reflectIdx v.length
              ((r : ℤ) + (fi : ℤ) - ((fp.length / 2 : ℕ) : ℤ)))
            (reflectIdx (cols v)
              ((c : ℤ) + (fj : ℤ) - ((cols fp / 2 : ℕ) : ℤ)))])
      else []))

/-- Neighborhood read following the words of claim C2 and spec section 4.6:
out-of-bounds neighborhood cells contribute the value zero (implicit
zero-padding).  Compared against the source-faithful reflect behavior. -/
def getZeroPad (g : List (List ℤ)) (i j : ℤ) : ℤ :=
  if 0 ≤ i ∧ i < (g.length : ℤ) ∧ 0 ≤ j ∧ j < (cols g : ℤ) then
    cell 0 g i.toNat j.toNat
  else 0

/-- The neighborhood sample under the claim's zero-padding convention. -/
def sampleAtZeroPad (g : List (List ℤ)) (fp : List (List ℕ)) (r c : ℕ) :
    List ℤ :=
  concatAll ((List.range fp.length).map fun fi =>
    concatAll ((List.range (cols fp)).map fun fj =>
      if cell 0 fp fi fj ≠ 0 then
        [getZeroPad g ((r : ℤ) + (fi : ℤ) - ((fp.length / 2 : ℕ) : ℤ))
          ((c : ℤ) + (fj : ℤ) - ((cols fp / 2 : ℕ) : ℤ))]
      else []))

/-- The moving-window filter as claim C2 states it: same gather, but with
implicit zero-padding at the boundary. -/
def spec_filter_zeropad (g : List (List ℤ)) (f : List ℤ → ℤ)
    (fp : List (List ℕ)) : List (List ℤ) :=
  mkGrid g.length (fun r => (g.getD r []).length) fun r c =>
    f (sampleAtZeroPad g fp r c)

/-- Python exception classes relevant to the write paths of the engine. -/
inductive PyExc where
  | fileNotFoundError
  | attributeError
  | rasterioIOError
deriving DecidableEq

/-- Embedding of raster.py's write_raster, parametrized by the outcome of its
rasterio open-and-write block (None when the block succeeds): success returns
True, a FileNotFoundError is caught, logged and turned into a False return,
and every other exception propagates to the caller. -/
def write_raster (rio_result : Option PyExc) : Except PyExc Bool :=
  match rio_result with
  | none => Except.ok true
  | some PyExc.fileNotFoundError => Except.ok false
  | some e => Except.error e

/-- Embedding of the write step of ndimage_filter (moving_windows lines
142-151), parametrized by what outfile.write() raises on the first call and
on the retry inside the AttributeError handler (None when the call succeeds).
A successful write falls off the end of the function, returning None; an
AttributeError triggers the retry, whose own failure propagates because a
handler's body is outside its own try block; any other exception is caught by
the bare except Exception branch, which returns the computed array. -/
def ndimage_write_step (first_try retry : Option PyExc)
    (image : List (List ℤ)) : Except PyExc (Option (List (List ℤ))) :=
  match first_try with
  | none => Except.ok none
  | some PyExc.attributeError =>
      match retry with
      | none => Except.ok none
      | some e => Except.error e
  | some _ => Except.ok (some image)

/-- State of an NdArrayDiscCache object: the path of its backing file. -/
structure CacheState where
  disc_cache_file : String

/-- State of a Raster container as far as its destructor reads it. -/
structure RasterState where
  use_disc_caching : Bool
  disc_cache_file : String

/-- Embedding of os.remove over a filesystem modelled as the list of existing
file paths. -/
def os_remove (fs : List String) (p : String) : List String :=
  fs.filter fun q => q != p

/-- Embedding of os.path.isfile over the filesystem model. -/
def os_path_isfile (fs : List String) (p : String) : Bool :=
  decide (p ∈ fs)

/-- Embedding of the destruction of an NdArrayDiscCache object: the class
defines __init__ only -- no __del__ and no close() -- so destroying the
cache performs no filesystem operation and its backing file persists. -/
def ndArrayDiscCache_del (fs : List String) (_c : CacheState) : List String :=
  fs

/-- Embedding of Raster.__del__ (raster.py lines 746-753): when disc caching
is enabled, remove the backing cache file if it exists; otherwise do
nothing. -/
def raster_del (fs : List String) (r : RasterState) : List String :=
  if r.use_disc_caching then
    if os_path_isfile fs r.disc_cache_file then os_remove fs r.disc_cache_file
    else fs
  else fs

theorem getD_of_ge {α : Type} (l : List α) (i : ℕ) (d : α)
    (h : l.length ≤ i) : l.getD i d = d := by
  rw [List.getD_eq_getElem?_getD, List.getElem?_eq_none h]
  rfl

theorem getD_range_map {α : Type} (n : ℕ) (f : ℕ → α) (i : ℕ) (d : α) :
    (((List.range n).map f).getD i d) = if i < n then f i else d := by
  by_cases h : i < n
  · rw [List.getD_eq_getElem?_getD, List.getElem?_map, List.getElem?_range h]
    simp [h]
  · rw [List.getD_eq_getElem?_getD, List.getElem?_map,
      List.getElem?_eq_none (by simpa using Nat.le_of_not_lt h)]
    simp [h]

theorem length_mkGrid {α : Type} (R : ℕ) (C : ℕ → ℕ) (F : ℕ → ℕ → α) :
    (mkGrid R C F).length = R := by
  simp [mkGrid]

theorem rowlen_mkGrid {α : Type} (R : ℕ) (C : ℕ → ℕ) (F : ℕ → ℕ → α) (i : ℕ) :
    ((mkGrid R C F).getD i []).length = if i < R then C i else 0 := by
  unfold mkGrid
  rw [getD_range_map]
  by_cases h : i < R
  · simp [h]
  · simp [h]

theorem cell_mkGrid {α : Type} (d : α) (R : ℕ) (C : ℕ → ℕ) (F : ℕ → ℕ → α)
    (i j : ℕ) :
    cell d (mkGrid R C F) i j = if i < R ∧ j < C i then F i j else d := by
  unfold cell mkGrid
  rw [getD_range_map]
  by_cases hi : i < R
  · rw [if_pos hi, getD_range_map]
    by_cases hj : j < C i
    · rw [if_pos hj, if_pos ⟨hi, hj⟩]
    · rw [if_neg hj, if_neg (by tauto)]
  · rw [if_neg hi, if_neg (by tauto)]
    simp

/-- C5: for every radius r > 0, gen_circular_array returns a
(2r+1) x (2r+1) grid, odd in both axes, whose cell at offset (di, dj) from
the center is 1 exactly when di^2 + dj^2 <= r^2 (the exact-integer form of
sqrt(di^2 + dj^2) <= r); for every r <= 0 it returns None. -/
theorem C5_circular_footprint (r : ℤ) :
    (r > 0 →
      ∃ g, gen_circular_array r = some g
        ∧ g.length = 2 * r.toNat + 1
        ∧ (∀ i, i < g.length → (g.getD i []).length = 2 * r.toNat + 1)
        ∧ g.length % 2 = 1
        ∧ (∀ di dj : ℤ, -r ≤ di → di ≤ r → -r ≤ dj → dj ≤ r →
            cell 0 g (r + di).toNat (r + dj).toNat =
              if di ^ 2 + dj ^ 2 ≤ r ^ 2 then 1 else 0))
    ∧ (r ≤ 0 → gen_circular_array r = none) := by
  constructor
  · intro hr
    have hn : ((r.toNat : ℤ)) = r := Int.toNat_of_nonneg hr.le
    refine ⟨circKernel r.toNat, by simp [gen_circular_array, hr], ?_, ?_, ?_, ?_⟩
    · simp [circKernel, length_mkGrid]
    · intro i hi
      rw [circKernel, length_mkGrid] at hi
      rw [circKernel, rowlen_mkGrid, if_pos hi]
    · simp [circKernel, length_mkGrid]
      omega
    · intro di dj h1 h2 h3 h4
      have hi : ((r + di).toNat : ℤ) = r + di := Int.toNat_of_nonneg (by omega)
      have hj : ((r + dj).toNat : ℤ) = r + dj := Int.toNat_of_nonneg (by omega)
      rw [circKernel, cell_mkGrid, if_pos (by omega)]
      rw [hi, hj, hn]
      have e1 : r + di - r = di := by ring
      have e2 : r + dj - r = dj := by ring
      rw [e1, e2]
  · intro hr
    simp [gen_circular_array]
    omega

theorem C5_witness :
    (∃ g, gen_circular_array 1 = some g
        ∧ g.length = 2 * (1 : ℤ).toNat + 1
        ∧ (∀ i, i < g.length → (g.getD i []).length = 2 * (1 : ℤ).toNat + 1)
        ∧ g.length % 2 = 1
        ∧ (∀ di dj : ℤ, -1 ≤ di → di ≤ 1 → -1 ≤ dj → dj ≤ 1 →
            cell 0 g (1 + di).toNat (1 + dj).toNat =
              if di ^ 2 + dj ^ 2 ≤ (1 : ℤ) ^ 2 then 1 else 0))
    ∧ gen_circular_array (-2) = none :=
  ⟨(C5_circular_footprint 1).1 (by decide), (C5_circular_footprint (-2)).2 (by decide)⟩

/-- C10: whenever a truthy (nonzero) window size is supplied together with an
explicit footprint, ndimage_filter discards the footprint and uses the
circular kernel synthesized from the size; the result does not depend on the
footprint argument at all. -/
theorem C10_size_overrides_footprint (fp : List (List ℕ)) (w : ℤ) (hw : w ≠ 0) :
    resolve_footprint (some w) (some fp) = gen_circular_array w
    ∧ resolve_footprint (some w) (some fp) = resolve_footprint (some w) none := by
  constructor
  · simp [resolve_footprint, hw]
  · simp [resolve_footprint, hw]

theorem C10_witness :
    resolve_footprint (some 1) (some [[7]]) = gen_circular_array 1 :=
  (C10_size_overrides_footprint [[7]] 1 (by decide)).1

/-- C4: the binary reclassifier returns a 0/1 grid of the input's shape whose
cell is 1 exactly when the input value belongs to the match set, complemented
when invert is set; on the 4x4 scenario grid with match set containing 1 and
2 it yields two rows of ones above two rows of zeros. -/
theorem C4_binary_reclassify_membership (a : List (List ℤ)) (m : List ℤ)
    (invert : Bool) (hm : m ≠ []) :
    (binary_reclassify a m invert).length = a.length
    ∧ (∀ i, ((binary_reclassify a m invert).getD i []).length
        = (a.getD i []).length)
    ∧ (∀ i j, cell 0 (binary_reclassify a m invert) i j = 0
        ∨ cell 0 (binary_reclassify a m invert) i j = 1)
    ∧ (∀ i j, i < a.length → j < (a.getD i []).length →
        (cell 0 (binary_reclassify a m invert) i j = 1 ↔
          ((cell 0 a i j ∈ m) ↔ invert = false)))
    ∧ binary_reclassify [[1, 1, 2, 2], [1, 1, 2, 2], [3, 3, 4, 4], [3, 3, 4, 4]]
        [1, 2] false
      = [[1, 1, 1, 1], [1, 1, 1, 1], [0, 0, 0, 0], [0, 0, 0, 0]] := by
  refine ⟨?_, ?_, ?_, ?_, ?_⟩
  · simp [binary_reclassify, length_mkGrid]
  · intro i
    rw [binary_reclassify, rowlen_mkGrid]
    by_cases h : i < a.length
    · rw [if_pos h]
    · rw [if_neg h, getD_of_ge a i [] (Nat.le_of_not_lt h)]
      rfl
  · intro i j
    rw [binary_reclassify, cell_mkGrid]
    by_cases h : i < a.length ∧ j < (a.getD i []).length
    · rw [if_pos h]
      by_cases hv : (cell 0 a i j ∈ m) ≠ (invert = true)
      · right
        rw [if_pos hv]
      · left
        rw [if_neg hv]
    · left
      rw [if_neg h]
  · intro i j hi hj
    rw [binary_reclassify, cell_mkGrid, if_pos ⟨hi, hj⟩]
    by_cases hv : cell 0 a i j ∈ m
    · cases invert
      · simp [hv]
      · simp [hv]
    · cases invert
      · simp [hv]
      · simp [hv]
  · decide

theorem C4_witness :
    binary_reclassify [[1, 1, 2, 2], [1, 1, 2, 2], [3, 3, 4, 4], [3, 3, 4, 4]]
        [1, 2] false
      = [[1, 1, 1, 1], [1, 1, 1, 1], [0, 0, 0, 0], [0, 0, 0, 0]] :=
  (C4_binary_reclassify_membership
    [[1, 1, 2, 2], [1, 1, 2, 2], [3, 3, 4, 4], [3, 3, 4, 4]]
    [1, 2] false (by decide)).2.2.2.2

/-- C6: the typed-array registry lookup fails on the qualified name
numpy.float32: the registered name float32 is a substring match of the input
in the claim's direction (first conjunct), yet the code returns None (second
conjunct) because the source swaps re.search's string= and pattern=
arguments; a bare registered name still resolves (third conjunct). -/
theorem C6_to_numpy_type_swapped_args :
    re_search "float32".toList "numpy.float32".toList = true
    ∧ _to_numpy_type "numpy.float32" = none
    ∧ _to_numpy_type "float32" = some NpType.float32 := by
  refine ⟨by decide, by decide, by decide⟩

/-- C7: est_array_size on the shape [2, 3].  With a resolvable element type
the code returns the product of the dimensions times sys.getsizeof of the
numpy type OBJECT -- never consulting the element byte width, which is 4 for
float32 -- and with dtype None it raises IndexError even though a usable
shape was determined. -/
theorem C7_est_array_size_bug :
    (∀ gso : Option NpType → ℕ,
        est_array_size gso [2, 3] (some "float32")
          = Except.ok (6 * gso (some NpType.float32)))
    ∧ (∀ gso : Option NpType → ℕ,
        est_array_size gso [2, 3] none = Except.error "IndexError")
    ∧ NpType.itemsize NpType.float32 = 4 :=
  ⟨fun _gso => rfl, fun _gso => rfl, rfl⟩

/-- C3: the write gate of ndimage_filter.  Because Python parses the decision
line as not (isfile or (overwrite and write)), an existing destination is
never written even with the overwrite flag set, and even a fresh destination
is skipped when overwrite and write are both set; the gate the claim
describes says both cases must be written. -/
theorem C3_write_gate_bug :
    ndimage_write_flag (some "out.tif") true true true = false
    ∧ claim_write_flag true true = true
    ∧ ndimage_write_flag (some "out.tif") false true true = false
    ∧ claim_write_flag false true = true := by
  decide

theorem sum_concatAll_map {α : Type} (l : List α) (f g : α → List ℤ)
    (h : ∀ a ∈ l, (f a).sum = (g a).sum) :
    (concatAll (l.map f)).sum = (concatAll (l.map g)).sum := by
  induction l with
  | nil => rfl
  | cons a t ih =>
    simp only [List.map_cons, concatAll, List.sum_append]
    rw [h a (List.mem_cons_self a t), ih fun b hb => h b (List.mem_cons_of_mem a hb)]

theorem length_ma_filled (v : List (List ℤ)) (m : List (List Bool)) :
    (ma_filled v m).length = v.length := by
  simp [ma_filled, length_mkGrid]

theorem cols_ma_filled (v : List (List ℤ)) (m : List (List Bool)) :
    cols (ma_filled v m) = cols v := by
  unfold cols
  rw [ma_filled, rowlen_mkGrid]
  by_cases h : 0 < v.length
  · rw [if_pos h]
  · rw [if_neg h, getD_of_ge v 0 [] (Nat.le_of_not_lt h)]
    rfl

theorem cell_out_of_range (v : List (List ℤ)) (i j : ℕ)
    (h : ¬(i < v.length ∧ j < (v.getD i []).length)) : cell 0 v i j = 0 := by
  unfold cell
  by_cases hi : i < v.length
  · have hj : (v.getD i []).length ≤ j := by
      rcases not_and_or.mp h with h1 | h2
      · exact absurd hi h1
      · exact Nat.le_of_not_lt h2
    exact getD_of_ge _ j 0 hj
  · rw [getD_of_ge v i [] (Nat.le_of_not_lt hi)]
    rfl

theorem cell_ma_filled (v : List (List ℤ)) (m : List (List Bool)) (i j : ℕ) :
    cell 0 (ma_filled v m) i j =
      if (m.getD i []).getD j false then 0 else cell 0 v i j := by
  rw [ma_filled, cell_mkGrid]
  by_cases h : i < v.length ∧ j < (v.getD i []).length
  · rw [if_pos h]
  · rw [if_neg h, cell_out_of_range v i j h]
    by_cases hm2 : (m.getD i []).getD j false
    · rw [if_pos hm2]
    · rw [if_neg hm2]

/-- C1: after the no-data-to-zero substitution every masked cell of the
container reads as 0, and the sum of any neighborhood sample over the filled
array equals the sum of the same sample with the masked cells dropped -- so a
masked cell contributes exactly 0 to every sum-based reducer window that
contains it. -/
theorem C1_nodata_contributes_zero (v : List (List ℤ)) (m : List (List Bool))
    (fp : List (List ℕ))
    (hmask : ∃ i j, (m.getD i []).getD j false = true) :
    (∀ i j, (m.getD i []).getD j false = true →
      cell 0 (ma_filled v m) i j = 0)
    ∧ (∀ r c, (sampleAt (ma_filled v m) fp r c).sum
        = (sampleAtUnmasked v m fp r c).sum) := by
  constructor
  · intro i j h
    rw [cell_ma_filled, if_pos h]
  · intro r c
    unfold sampleAt sampleAtUnmasked
    apply sum_concatAll_map
    intro fi _
    apply sum_concatAll_map
    intro fj _
    by_cases hfp : cell 0 fp fi fj ≠ 0
    · rw [if_pos hfp, if_pos hfp]
      unfold getReflect
      rw [length_ma_filled, cols_ma_filled, cell_ma_filled]
      by_cases hm2 :
          (m.getD (reflectIdx v.length
              ((r : ℤ) + (fi : ℤ) - ((fp.length / 2 : ℕ) : ℤ))) []).getD
            (reflectIdx (cols v)
              ((c : ℤ) + (fj : ℤ) - ((cols fp / 2 : ℕ) : ℤ))) false
      · rw [if_pos hm2, if_pos hm2]
        rfl
      · rw [if_neg hm2, if_neg hm2]
    · rw [if_neg hfp, if_neg hfp]

theorem C1_witness :
    (sampleAt (ma_filled [[5, 7], [9, 4]] [[false, true], [false, false]])
        [[0, 1, 0], [1, 1, 1], [0, 1, 0]] 0 1).sum
      = (sampleAtUnmasked [[5, 7], [9, 4]] [[false, true], [false, false]]
        [[0, 1, 0], [1, 1, 1], [0, 1, 0]] 0 1).sum :=
  (C1_nodata_contributes_zero [[5, 7], [9, 4]]
    [[false, true], [false, false]] [[0, 1, 0], [1, 1, 1], [0, 1, 0]]
    ⟨0, 1, rfl⟩).2 0 1

theorem reflectIdx_of_lt (n : ℕ) (i : ℤ) (h0 : 0 ≤ i) (h1 : i < (n : ℤ)) :
    reflectIdx n i = i.toNat := by
  unfold reflectIdx
  rw [Int.emod_eq_of_lt h0 (by omega)]
  split
  · rfl
  · omega

theorem reflectIdx_neg (n k : ℕ) (hk : k < n) :
    reflectIdx n (-1 - (k : ℤ)) = k := by
  unfold reflectIdx
  have h2 : (-1 - (k : ℤ)) % (2 * (n : ℤ)) = 2 * (n : ℤ) - 1 - (k : ℤ) := by
    have e : (-1 - (k : ℤ))
        = (2 * (n : ℤ) - 1 - (k : ℤ)) + (2 * (n : ℤ)) * (-1) := by ring
    rw [e, Int.add_mul_emod_self_left]
    exact Int.emod_eq_of_lt (by omega) (by omega)
  rw [h2]
  split
  · omega
  · omega

theorem reflectIdx_ge (n k : ℕ) (hk : k < n) :
    reflectIdx n ((n : ℤ) + (k : ℤ)) = n - 1 - k := by
  unfold reflectIdx
  rw [Int.emod_eq_of_lt (by omega) (by omega)]
  split
  · omega
  · omega

/-- C2 amended: the filter output always has exactly the shape of the input,
but positions that fall outside the array are not read as zero: scipy's
default boundary mode reflect is in effect, so an index i within the array
maps to itself while the out-of-range index -1-k maps back to row or column
k, and n+k maps back to n-1-k (mirroring at the edges). -/
theorem C2_shape_and_reflect_boundary (g : List (List ℤ)) (f : List ℤ → ℤ)
    (fp : List (List ℕ)) :
    (generic_filter g f fp).length = g.length
    ∧ (∀ i, ((generic_filter g f fp).getD i []).length = (g.getD i []).length)
    ∧ (∀ (n : ℕ) (i : ℤ), 0 ≤ i → i < (n : ℤ) → reflectIdx n i = i.toNat)
    ∧ (∀ n k : ℕ, k < n → reflectIdx n (-1 - (k : ℤ)) = k)
    ∧ (∀ n k : ℕ, k < n → reflectIdx n ((n : ℤ) + (k : ℤ)) = n - 1 - k) := by
  refine ⟨?_, ?_, reflectIdx_of_lt, reflectIdx_neg, reflectIdx_ge⟩
  · simp [generic_filter, length_mkGrid]
  · intro i
    rw [generic_filter, rowlen_mkGrid]
    by_cases h : i < g.length
    · rw [if_pos h]
    · rw [if_neg h, getD_of_ge g i [] (Nat.le_of_not_lt h)]
      rfl

theorem C2_witness :
    (generic_filter [[1, 0, 0], [0, 0, 0], [0, 0, 0]] (fun l => l.sum)
        [[0, 1, 0], [1, 1, 1], [0, 1, 0]]).length = 3
    ∧ reflectIdx 3 (-1 - (0 : ℤ)) = 0
    ∧ reflectIdx 3 ((3 : ℤ) + (0 : ℤ)) = 2 :=
  ⟨(C2_shape_and_reflect_boundary [[1, 0, 0], [0, 0, 0], [0, 0, 0]]
      (fun l => l.sum) [[0, 1, 0], [1, 1, 1], [0, 1, 0]]).1,
   (C2_shape_and_reflect_boundary [[1, 0, 0], [0, 0, 0], [0, 0, 0]]
      (fun l => l.sum) [[0, 1, 0], [1, 1, 1], [0, 1, 0]]).2.2.2.1 3 0
     (by decide),
   (C2_shape_and_reflect_boundary [[1, 0, 0], [0, 0, 0], [0, 0, 0]]
      (fun l => l.sum) [[0, 1, 0], [1, 1, 1], [0, 1, 0]]).2.2.2.2 3 0
     (by decide)⟩

/-- C2 counterexample: on the 3x3 array with a single 1 in the corner and the
radius-1 circular footprint the code produces 3 at the corner cell (the two
out-of-bounds neighbors reflect back onto the corner), while the claim's
zero-padding convention produces 1, so the filter result differs from the
zero-padded filter the claim describes. -/
theorem C2_counterexample :
    gen_circular_array 1 = some [[0, 1, 0], [1, 1, 1], [0, 1, 0]]
    ∧ cell 0 (generic_filter [[1, 0, 0], [0, 0, 0], [0, 0, 0]]
        (fun l => l.sum) [[0, 1, 0], [1, 1, 1], [0, 1, 0]]) 0 0 = 3
    ∧ cell 0 (spec_filter_zeropad [[1, 0, 0], [0, 0, 0], [0, 0, 0]]
        (fun l => l.sum) [[0, 1, 0], [1, 1, 1], [0, 1, 0]]) 0 0 = 1
    ∧ generic_filter [[1, 0, 0], [0, 0, 0], [0, 0, 0]]
        (fun l => l.sum) [[0, 1, 0], [1, 1, 1], [0, 1, 0]]
      ≠ spec_filter_zeropad [[1, 0, 0], [0, 0, 0], [0, 0, 0]]
        (fun l => l.sum) [[0, 1, 0], [1, 1, 1], [0, 1, 0]] := by
  decide

/-- C8 counterexample: a FileNotFoundError while opening the destination (the
claim's own example of an I/O failure unrelated to a missing Raster Value
Container) is converted by write_raster into a plain False return rather than
propagating, and a rasterio I/O error raised inside the engine's write step
makes ndimage_filter return the computed array normally instead of surfacing
the failure. -/
theorem C8_counterexample :
    write_raster (some PyExc.fileNotFoundError) = Except.ok false
    ∧ write_raster (some PyExc.fileNotFoundError)
        ≠ Except.error PyExc.fileNotFoundError
    ∧ ndimage_write_step (some PyExc.rasterioIOError) none [[1]]
        = Except.ok (some [[1]])
    ∧ ndimage_write_step (some PyExc.rasterioIOError) none [[1]]
        ≠ Except.error PyExc.rasterioIOError := by
  refine ⟨rfl, ?_, rfl, ?_⟩
  · intro hcon
    exact Except.noConfusion hcon
  · intro hcon
    exact Except.noConfusion hcon

/-- C8 amended: write failures are largely swallowed rather than propagated:
write_raster converts a FileNotFoundError into a False return and only
propagates other exception classes, while the engine's write step returns the
computed array for every non-AttributeError failure; the only failure that
escapes the engine's write step is one raised by the retry performed inside
its AttributeError handler. -/
theorem C8_write_failures_swallowed (e : PyExc) :
    write_raster (some PyExc.fileNotFoundError) = Except.ok false
    ∧ (e ≠ PyExc.fileNotFoundError → write_raster (some e) = Except.error e)
    ∧ (∀ retry img, e ≠ PyExc.attributeError →
        ndimage_write_step (some e) retry img = Except.ok (some img))
    ∧ (∀ img, ndimage_write_step (some PyExc.attributeError) (some e) img
        = Except.error e) := by
  refine ⟨rfl, ?_, ?_, fun img => rfl⟩
  · intro h
    cases e
    · exact absurd rfl h
    · rfl
    · rfl
  · intro retry img h
    cases e
    · rfl
    · exact absurd rfl h
    · rfl

theorem C8_witness :
    write_raster (some PyExc.rasterioIOError)
      = Except.error PyExc.rasterioIOError
    ∧ ndimage_write_step (some PyExc.rasterioIOError) none [[2]]
      = Except.ok (some [[2]])
    ∧ ndimage_write_step (some PyExc.attributeError)
        (some PyExc.rasterioIOError) [[2]]
      = Except.error PyExc.rasterioIOError :=
  ⟨(C8_write_failures_swallowed PyExc.rasterioIOError).2.1 (by decide),
   (C8_write_failures_swallowed PyExc.rasterioIOError).2.2.1 none [[2]]
     (by decide),
   (C8_write_failures_swallowed PyExc.rasterioIOError).2.2.2 [[2]]⟩

/-- C9 counterexample: creating and destroying a disc-backed array cache
leaves its backing file on disk, because NdArrayDiscCache defines no
destructor and no close method, so releasing it removes nothing. -/
theorem C9_counterexample :
    ndArrayDiscCache_del ["123_np_array.dat"] ⟨"123_np_array.dat"⟩
      = ["123_np_array.dat"]
    ∧ "123_np_array.dat" ∈
        ndArrayDiscCache_del ["123_np_array.dat"] ⟨"123_np_array.dat"⟩ := by
  decide

/-- C9 amended: the release contract holds of the Raster container's
destructor rather than of the cache object itself: with disc caching enabled
Raster.__del__ removes the backing file exactly when it exists, leaves no
backing file behind, touches no other path, and a second release is a no-op
that cannot raise. -/
theorem C9_raster_del_cleanup (fs : List String) (r : RasterState)
    (h : r.use_disc_caching = true) :
    r.disc_cache_file ∉ raster_del fs r
    ∧ (∀ q, q ≠ r.disc_cache_file → (q ∈ raster_del fs r ↔ q ∈ fs))
    ∧ raster_del (raster_del fs r) r = raster_del fs r
    ∧ (os_path_isfile fs r.disc_cache_file = false → raster_del fs r = fs) := by
  have hde : ∀ fs2 : List String, raster_del fs2 r =
      if r.disc_cache_file ∈ fs2 then os_remove fs2 r.disc_cache_file
      else fs2 := by
    intro fs2
    unfold raster_del os_path_isfile
    rw [if_pos h]
    by_cases hf : r.disc_cache_file ∈ fs2
    · rw [if_pos (by simp [hf]), if_pos hf]
    · rw [if_neg (by simp [hf]), if_neg hf]
  have hmem : ∀ (fs2 : List String) (q : String),
      q ∈ os_remove fs2 r.disc_cache_file ↔
        q ∈ fs2 ∧ q ≠ r.disc_cache_file := by
    intro fs2 q
    simp [os_remove]
  refine ⟨?_, ?_, ?_, ?_⟩
  · rw [hde]
    by_cases hf : r.disc_cache_file ∈ fs
    · rw [if_pos hf]
      intro hcon
      exact ((hmem fs _).mp hcon).2 rfl
    · rw [if_neg hf]
      exact hf
  · intro q hq
    rw [hde]
    by_cases hf : r.disc_cache_file ∈ fs
    · rw [if_pos hf]
      constructor
      · intro hin
        exact ((hmem fs q).mp hin).1
      · intro hin
        exact (hmem fs q).mpr ⟨hin, hq⟩
    · rw [if_neg hf]
  · rw [hde fs]
    by_cases hf : r.disc_cache_file ∈ fs
    · rw [if_pos hf, hde,
        if_neg (fun hcon => ((hmem fs _).mp hcon).2 rfl)]
    · rw [if_neg hf, hde, if_neg hf]
  · intro hf
    have hf2 : r.disc_cache_file ∉ fs := by
      simpa [os_path_isfile] using hf
    rw [hde, if_neg hf2]

theorem C9_witness :
    "c.dat" ∉ raster_del ["c.dat", "other.tif"] ⟨true, "c.dat"⟩
    ∧ raster_del (raster_del ["c.dat", "other.tif"] ⟨true, "c.dat"⟩)
        ⟨true, "c.dat"⟩
      = raster_del ["c.dat", "other.tif"] ⟨true, "c.dat"⟩ :=
  ⟨(C9_raster_del_cleanup ["c.dat", "other.tif"] ⟨true, "c.dat"⟩ rfl).1,
   (C9_raster_del_cleanup ["c.dat", "other.tif"] ⟨true, "c.dat"⟩ rfl).2.2.1⟩

end Beatbox
